import Mathlib

/-!
# Verification of the claude-spec-executor reconciliation and checkpoint core

Shallow embedding of the TODO-write validation hook (`src/hooks/validate-todo.py`)
and of the checkpoint state machine (`src/skills/spec-executor/scripts/checkpoint.py`).

Modelling conventions:
* Python strings are Lean `String`s; character-level operations are written as
  structural recursions over `List Char` so that every definition reduces in the
  kernel.  Python's `str.strip` removes ASCII whitespace (including `\x0b`, `\x0c`);
  `str.lower` / `isdigit` are modelled on ASCII characters (all identifiers the
  program manipulates are ASCII).
* Python dictionaries with a fixed key set are Lean structures.  A key that is
  read with `.get` but never written (such as `expected_count` on the canonical
  snapshot, read by `check-pending-todos.py`) is modelled as an `Option` field
  that the writer sets to `none`.
* File-system state is passed explicitly: the expectation artifact
  (`/tmp/claude-expected-todo-count`) is an `Option String` (its content),
  the canonical file is a `LoadState`, and wall-clock timestamps are opaque
  `String` parameters.  `created_at` (a timestamp only) is omitted from the
  canonical snapshot model.
-/

namespace SpecExec

set_option maxRecDepth 100000

/-- ASCII whitespace as stripped by Python's `str.strip()`. -/
def pyIsWs (c : Char) : Bool :=
  c == ' ' || c == '\t' || c == '\n' || c == '\r' || c == '\x0b' || c == '\x0c'

/-- Strip leading and trailing whitespace from a character list. -/
def stripChars (l : List Char) : List Char :=
  ((l.dropWhile pyIsWs).reverse.dropWhile pyIsWs).reverse

/-- Python `str.strip()`. -/
def pyStrip (s : String) : String := ⟨stripChars s.data⟩

/-- Substring containment, Python's `pat in s` (non-overlapping scan). -/
def hasSub (pat : List Char) : List Char → Bool
  | [] => pat.isEmpty
  | c :: t => pat.isPrefixOf (c :: t) || hasSub pat t

/-- `s.replace(pat, rep)` on character lists, with explicit fuel (the fuel is
always at least the length of the input, so it never runs out). -/
def replaceAllFuel (pat rep : List Char) : Nat → List Char → List Char
  | _, [] => []
  | 0, s => s
  | f + 1, c :: rest =>
    if !pat.isEmpty && pat.isPrefixOf (c :: rest) then
      rep ++ replaceAllFuel pat rep f ((c :: rest).drop pat.length)
    else
      c :: replaceAllFuel pat rep f rest

/-- Python `str.replace` (replaces every occurrence). -/
def replaceAll (pat rep s : List Char) : List Char :=
  replaceAllFuel pat rep s.length s

/-- Strict lexicographic comparison of character lists by code point,
Python's `<` on strings. -/
def charListLt : List Char → List Char → Bool
  | [], [] => false
  | [], _ :: _ => true
  | _ :: _, [] => false
  | a :: as, b :: bs => a < b || (a == b && charListLt as bs)

/-- A TODO item as passed to the hook (`tool_input.todos[i]`). -/
structure Todo where
  content : String
  status : String
  activeForm : String := ""
deriving DecidableEq

/-- `extract_task_id` from `validate-todo.py`: the identifier prefix before the
first colon, accepted iff it is non-empty and contains a `.`, starts with
`phase-`, or starts with a digit.  (The source strips, then redundantly
lstrips `" \t"`; a single strip is equivalent.) -/
def extract_task_id (content : String) : Option String :=
  let c := stripChars content.data
  if c.any (fun ch => ch == ':') then
    let p := stripChars (c.takeWhile (fun ch => ch != ':'))
    if !p.isEmpty &&
        (p.any (fun ch => ch == '.') || ("phase-").data.isPrefixOf p ||
          (p.headD 'A').isDigit) then
      some ⟨p⟩
    else none
  else none

/-- `extract_task_ids`: the set of identifiers of a TODO list, as a
duplicate-free list (the source builds a Python `set`). -/
def extract_task_ids (todos : List Todo) : List String :=
  (todos.filterMap (fun t => extract_task_id t.content)).dedup

/-- `is_collapsed_phase`: the item is a phase summary. -/
def is_collapsed_phase (content : String) : Bool :=
  let c := stripChars content.data
  let lower := c.map Char.toLower
  hasSub (".x:").data lower || hasSub (".loop:").data lower ||
    (hasSub ("completed").data lower && hasSub ("✓").data c)

/-- `get_phase_number`: the part before the first `.`, or the `N` of `phase-N`
(via Python's replace-all semantics). -/
def get_phase_number (task_id : String) : Option String :=
  let l := task_id.data
  if l.any (fun ch => ch == '.') then
    some ⟨l.takeWhile (fun ch => ch != '.')⟩
  else if ("phase-").data.isPrefixOf l then
    some ⟨replaceAll ("phase-").data [] l⟩
  else none

/-- The sort key used by `save_canonical` and the missing-id message:
`(int(x.split(".")[0]) if x.split(".")[0].isdigit() else 999, x)`. -/
def natOfDigits (l : List Char) : Nat :=
  l.foldl (fun n c => n * 10 + (c.toNat - 48)) 0

/-- First component of the Python sort key (numeric phase, else `999`). -/
def sortKeyNum (x : String) : Nat :=
  let p := x.data.takeWhile (fun ch => ch != '.')
  if !p.isEmpty && p.all Char.isDigit then natOfDigits p else 999

/-- `a` sorts no later than `b` under the Python key `(phase number, id)`. -/
def keyLe (a b : String) : Bool :=
  sortKeyNum a < sortKeyNum b ||
    (sortKeyNum a == sortKeyNum b && (a == b || charListLt a.data b.data))

/-- Insert into a list sorted by `keyLe`. -/
def insertSorted (a : String) : List String → List String
  | [] => [a]
  | b :: bs => if keyLe a b then a :: b :: bs else b :: insertSorted a bs

/-- Python's `sorted(ids, key=...)` (insertion sort; the key order is total and
antisymmetric on distinct strings, so the output order is the unique sorted
one). -/
def pySortIds (l : List String) : List String := l.foldr insertSorted []

/-- Python `repr` of a list of plain identifier strings (no quotes or
backslashes in the elements), as interpolated into the missing-ids message. -/
def pyReprList (l : List String) : String :=
  "[" ++ String.intercalate (", ") (l.map (fun s => "'" ++ s ++ "'")) ++ "]"

/-- `digit+ ('_' digit+)*` continuation state: what may follow a digit in a
Python integer literal body. -/
def digitsRest : List Char → Bool
  | [] => true
  | c :: cs =>
    if c.isDigit then digitsRest cs
    else if c == '_' then
      match cs with
      | [] => false
      | d :: cs2 => d.isDigit && digitsRest cs2
    else false

/-- The body of a Python decimal integer literal: at least one digit, single
underscores allowed between digits. -/
def digitsOk : List Char → Bool
  | [] => false
  | c :: cs => c.isDigit && digitsRest cs

/-- Python `int(s)` on an already-stripped string: optional sign, then decimal
digits with optional single underscores; anything else raises `ValueError`
(here: `none`).  Non-ASCII numerals are not modelled. -/
def pyParseInt (s : String) : Option Int :=
  match s.data with
  | '+' :: r =>
    if digitsOk r then some (Int.ofNat (natOfDigits (r.filter (fun c => c != '_')))) else none
  | '-' :: r =>
    if digitsOk r then some (-(Int.ofNat (natOfDigits (r.filter (fun c => c != '_'))))) else none
  | r =>
    if digitsOk r then some (Int.ofNat (natOfDigits (r.filter (fun c => c != '_')))) else none

/-- The canonical snapshot `.claude/todo-canonical.json` as written by
`save_canonical` (the `created_at` timestamp is omitted; `expected_count`
models the key read back with `.get("expected_count")`, which `save_canonical`
never writes, hence `none` for every snapshot it produces). -/
structure Canonical where
  spec_file : Option String
  expected_count : Option Int
  task_count : Nat
  task_ids : List String
  todos : List Todo
deriving DecidableEq

/-- The collapsed phases declared by a new TODO list (`validate_todos`,
first loop): phases of collapse-marker items with a truthy extracted id and a
truthy phase number. -/
def collapsedPhases (new_todos : List Todo) : List String :=
  (new_todos.filterMap (fun t =>
    if is_collapsed_phase t.content then
      match extract_task_id t.content with
      | some tid =>
        match get_phase_number tid with
        | some p => if p = "" then none else some p
        | none => none
      | none => none
    else none)).dedup

/-- One original id is covered by the new write (`validate_todos`, second
loop): present verbatim, or its (truthy) phase is collapsed, or `phase.x` is
among the new ids. -/
def coveredB (new_ids collapsed : List String) (oid : String) : Bool :=
  decide (oid ∈ new_ids) ||
    (match get_phase_number oid with
     | some p =>
       if p = "" then false
       else decide (p ∈ collapsed) || decide ((p ++ ".x") ∈ new_ids)
     | none => false)

/-- The `UnexplainedShrinkError` message of `validate_todos`. -/
def shrinkMsg (original_count new_count : Nat) : String :=
  "TODO count decreased from " ++ toString original_count ++ " to " ++
    toString new_count ++ " without proper phase collapse"

/-- The `TaskRemovalError` message of `validate_todos`. -/
def missingMsg (sorted_missing : List String) : String :=
  "Task removal not allowed. Missing: " ++ pyReprList sorted_missing

/-- `validate_todos`: reconcile a new TODO list against the canonical.
Returns `(is_valid, error_message)`. -/
def validate_todos (new_todos : List Todo) (canonical : Canonical) : Bool × String :=
  let new_ids := extract_task_ids new_todos
  let collapsed := collapsedPhases new_todos
  let originals := canonical.task_ids.dedup
  let missing := originals.filter (fun oid => !coveredB new_ids collapsed oid)
  if missing = [] then
    if new_todos.length < canonical.task_count ∧ collapsed = [] then
      (false, shrinkMsg canonical.task_count new_todos.length)
    else
      (true, "")
  else
    (false, missingMsg (pySortIds missing))

/-- The `CountMismatchError` message of `check_expected_count`. -/
def mismatchMsg (expected : Int) (actual : Nat) : String :=
  "=== TODO COUNT VALIDATION FAILED ===\nExpected: " ++ toString expected ++
    " items\nActual: " ++ toString actual ++
    " items\n\nYou MUST recreate the TODO with EXACTLY " ++ toString expected ++
    " items.\nDo NOT proceed until counts match.\n====================================="

/-- `check_expected_count`: evaluate the expectation artifact
(`/tmp/claude-expected-todo-count`, modelled by its optional content) against
the write.  Returns `(is_valid, message, artifact after the call)`; a content
that fails to parse as an integer is swallowed (`except ValueError`) and the
artifact is left in place. -/
def check_expected_count (artifact : Option String) (new_todos : List Todo) :
    Bool × String × Option String :=
  match artifact with
  | none => (true, "", none)
  | some content =>
    match pyParseInt (pyStrip content) with
    | none => (true, "", some content)
    | some n =>
      if (new_todos.length : Int) ≠ n then
        (false, mismatchMsg n new_todos.length, some content)
      else
        (true, "count_validated", none)

/-- `save_canonical`: the snapshot value written for a TODO list.  The
`spec_file` argument is the (filesystem-dependent) result of
`find_spec_file`, passed in explicitly; the dict literal in the source has no
`expected_count` key, hence `expected_count := none`. -/
def save_canonical (todos : List Todo) (spec_file : Option String) : Canonical :=
  { spec_file := spec_file
    expected_count := none
    task_count := todos.length
    task_ids := pySortIds (extract_task_ids todos)
    todos := todos }

/-- The canonical file as seen by `load_canonical`: absent, unreadable
(`{"_error": ...}`), or a parsed snapshot. -/
inductive LoadState where
  | missing
  | corrupt (err : String)
  | ok (c : Canonical)
deriving DecidableEq

/-- The durable state touched by one hook invocation. -/
structure HookState where
  artifact : Option String
  canonical : LoadState
  specFileOnDisk : Option String
deriving DecidableEq

/-- What `main` emits: nothing (pass-through), a stdout block decision, or a
stderr informational record. -/
inductive HookOutput where
  | silent
  | block (reason : String)
  | canonicalCreated (count : Nat)
  | canonicalCreatedImplicit (count : Nat)
  | validated (count canonical_count : Nat)
deriving DecidableEq

/-- `Option` rendered the way a Python `None`-or-string f-string renders it. -/
def specFileStr : Option String → String
  | some s => s
  | none => "None"

/-- The block reason `main` wraps around a `validate_todos` failure. -/
def wrapReason (projectDir : String) (c : Canonical) (newCount : Nat)
    (errMsg : String) : String :=
  "=== TODO VALIDATION FAILED ===\n\n" ++ errMsg ++
    "\n\nOriginal task count: " ++ toString c.task_count ++
    "\nCurrent task count: " ++ toString newCount ++
    "\n\nTO RECOVER, regenerate the TODO from SPEC:\n\n  # Option 1: Use generate-todo.py\n  python3 $SCRIPTS/generate-todo.py --spec " ++
    specFileStr c.spec_file ++
    " --base --format json\n\n  # Option 2: Read canonical directly\n  cat " ++
    projectDir ++
    "/.claude/todo-canonical.json\n\nThen recreate TodoWrite with ALL original task IDs.\n==============================="

/-- `main` of `validate-todo.py` on a parsed hook event: the emitted record and
the durable state afterwards.  (The unparseable-stdin branch is outside this
model; `projectDir` is the resolved project directory.) -/
def runHook (st : HookState) (toolName : String) (todos : List Todo)
    (projectDir : String) : HookOutput × HookState :=
  if toolName ≠ "TodoWrite" then (.silent, st)
  else if todos = [] then (.silent, st)
  else
    let g := check_expected_count st.artifact todos
    if g.1 = false then
      (.block g.2.1, { st with artifact := g.2.2 })
    else if g.2.1 = "count_validated" then
      (.canonicalCreated todos.length,
        { st with artifact := g.2.2,
                  canonical := .ok (save_canonical todos st.specFileOnDisk) })
    else
      let stGate : HookState := { st with artifact := g.2.2 }
      match st.canonical with
      | .missing =>
        (.canonicalCreatedImplicit todos.length,
          { stGate with canonical := .ok (save_canonical todos st.specFileOnDisk) })
      | .corrupt err => (.block err, stGate)
      | .ok c =>
        let v := validate_todos todos c
        if v.1 = false then
          (.block (wrapReason projectDir c todos.length v.2), stGate)
        else
          (.validated todos.length c.task_count, stGate)

/-! ## Checkpoint state machine (`checkpoint.py`) -/

/-- An entry of the `completed_items` ledger. -/
structure CompletedEntry where
  index : Int
  item_id : Option String
  completed_at : String
deriving DecidableEq

/-- An entry of the `failed_items` ledger. -/
structure FailedEntry where
  index : Int
  item_id : Option String
  failed_at : String
  reason : String
deriving DecidableEq

/-- The checkpoint file `.claude/checkpoints/<spec>.json`. -/
structure Checkpoint where
  spec_name : String
  spec_file : Option String
  started_at : String
  last_updated : String
  loop_phase : String
  total_items : Int
  current_index : Int
  current_item_id : Option String
  current_item_name : Option String
  current_task : Option String
  completed_items : List CompletedEntry
  failed_items : List FailedEntry
  status : String
deriving DecidableEq

/-- Python truthiness of an optional string (`if item_id:` / `x or y`):
`None` and `""` are falsy. -/
def optTruthy : Option String → Bool
  | some s => s ≠ ""
  | none => false

/-- Python `a or b` on optional strings. -/
def pyOrElse (a b : Option String) : Option String :=
  if optTruthy a then a else b

/-- `init_checkpoint`: a fresh checkpoint (the two `now_iso()` calls are
modelled by one timestamp parameter `now`). -/
def init_checkpoint (spec_name : String) (total : Int) (loop_phase : String)
    (spec_file : Option String) (now : String) : Checkpoint :=
  { spec_name := spec_name
    spec_file := spec_file
    started_at := now
    last_updated := now
    loop_phase := loop_phase
    total_items := total
    current_index := 0
    current_item_id := none
    current_item_name := none
    current_task := none
    completed_items := []
    failed_items := []
    status := "in_progress" }

/-- The state change of `update_checkpoint` on an existing checkpoint:
sets cursor fields and `last_updated`; `current_item_id` / `current_item_name`
only when the arguments are truthy; ledgers untouched. -/
def applyUpdate (c : Checkpoint) (index : Int) (task : String)
    (item_id item_name : Option String) (now : String) : Checkpoint :=
  { c with
    current_index := index
    current_task := some task
    last_updated := now
    current_item_id := pyOrElse item_id c.current_item_id
    current_item_name := pyOrElse item_name c.current_item_name }

/-- The state change of `complete_item` on an existing checkpoint: append to
`completed_items` (falling back to `current_item_id` for a falsy `item_id`),
then set `status` to `"completed"` iff the new ledger length is at least
`total_items`. -/
def applyComplete (c : Checkpoint) (index : Int) (item_id : Option String)
    (now : String) : Checkpoint :=
  let entry : CompletedEntry :=
    { index := index
      item_id := pyOrElse item_id c.current_item_id
      completed_at := now }
  let newCompleted := c.completed_items ++ [entry]
  { c with
    completed_items := newCompleted
    last_updated := now
    status := if (newCompleted.length : Int) ≥ c.total_items then "completed" else c.status }

/-- The state change of `fail_item` on an existing checkpoint: append to
`failed_items`; `status` untouched. -/
def applyFail (c : Checkpoint) (index : Int) (item_id : Option String)
    (reason : String) (now : String) : Checkpoint :=
  let entry : FailedEntry :=
    { index := index
      item_id := pyOrElse item_id c.current_item_id
      failed_at := now
      reason := reason }
  { c with failed_items := c.failed_items ++ [entry], last_updated := now }

/-- The fatal message printed when `update`/`complete`/`fail` finds no
checkpoint file (followed by `sys.exit(1)`). -/
def precondMsg (spec_name : String) : String :=
  "Error: No checkpoint found for " ++ spec_name ++ ". Run 'init' first."

/-- `update_checkpoint` as called: requires an existing checkpoint, else fatal
with no state written. -/
def update_checkpoint (store : Option Checkpoint) (spec_name : String)
    (index : Int) (task : String) (item_id item_name : Option String)
    (now : String) : Except String Checkpoint :=
  match store with
  | none => .error (precondMsg spec_name)
  | some c => .ok (applyUpdate c index task item_id item_name now)

/-- `complete_item` as called: requires an existing checkpoint. -/
def complete_item (store : Option Checkpoint) (spec_name : String)
    (index : Int) (item_id : Option String) (now : String) :
    Except String Checkpoint :=
  match store with
  | none => .error (precondMsg spec_name)
  | some c => .ok (applyComplete c index item_id now)

/-- `fail_item` as called: requires an existing checkpoint. -/
def fail_item (store : Option Checkpoint) (spec_name : String)
    (index : Int) (item_id : Option String) (reason : String) (now : String) :
    Except String Checkpoint :=
  match store with
  | none => .error (precondMsg spec_name)
  | some c => .ok (applyFail c index item_id reason now)

/-- The effect of a call on the stored file: an error writes nothing
(`sys.exit` fires before any write). -/
def stepStore (store : Option Checkpoint) : Except String Checkpoint → Option Checkpoint
  | .error _ => store
  | .ok c => some c

/-- One mutation of an existing checkpoint, for reasoning about whole
`update`/`complete`/`fail` call sequences. -/
inductive Op where
  | update (index : Int) (task : String) (item_id item_name : Option String)
  | complete (index : Int) (item_id : Option String)
  | fail (index : Int) (item_id : Option String) (reason : String)
deriving DecidableEq

/-- Apply one operation (with its wall-clock timestamp) to a checkpoint. -/
def applyOp (c : Checkpoint) : Op → String → Checkpoint
  | .update i t iid iname, now => applyUpdate c i t iid iname now
  | .complete i iid, now => applyComplete c i iid now
  | .fail i iid r, now => applyFail c i iid r now

/-- Run a sequence of timestamped operations from a starting checkpoint. -/
def reachCk (c0 : Checkpoint) (ops : List (Op × String)) : Checkpoint :=
  ops.foldl (fun c p => applyOp c p.1 p.2) c0

/-- The status invariant of a checkpoint initialised with `total`:
`total_items` is fixed and `status` is `"completed"` exactly when the
completed ledger has reached `max total 1` entries (for `total ≥ 1` this is
`total`; a checkpoint with `total ≤ 0` still starts `in_progress` and flips
on its first `complete`). -/
def ckInv (total : Int) (c : Checkpoint) : Prop :=
  c.total_items = total ∧
    (c.status = "completed" ↔ (c.completed_items.length : Int) ≥ max total 1)

/-! ## Helper lemmas -/

/-- A filter whose predicate rejects every element is empty. -/
theorem filterNilOfAllFalse {α : Type} (p : α → Bool) (l : List α)
    (h : ∀ a ∈ l, p a = false) : l.filter p = [] := by
  induction l with
  | nil => rfl
  | cons a t ih =>
    have ha := h a (List.mem_cons_self a t)
    have ht := ih (fun b hb => h b (List.mem_cons_of_mem a hb))
    simp [List.filter_cons, ha, ht]

/-- A filter whose predicate keeps every element is the identity. -/
theorem filterAllTrue {α : Type} (p : α → Bool) (l : List α)
    (h : ∀ a ∈ l, p a = true) : l.filter p = l := by
  induction l with
  | nil => rfl
  | cons a t ih =>
    have ha := h a (List.mem_cons_self a t)
    have ht := ih (fun b hb => h b (List.mem_cons_of_mem a hb))
    simp [List.filter_cons, ha, ht]

/-- If every canonical id is covered, reconciliation reaches the shrink check:
it blocks with the before/after counts iff the item count decreased with no
declared collapse, and allows otherwise. -/
theorem validate_of_all_covered (new_todos : List Todo) (c : Canonical)
    (h : ∀ oid ∈ c.task_ids,
      coveredB (extract_task_ids new_todos) (collapsedPhases new_todos) oid = true) :
    validate_todos new_todos c =
      if new_todos.length < c.task_count ∧ collapsedPhases new_todos = [] then
        (false, shrinkMsg c.task_count new_todos.length)
      else (true, "") := by
  have hm : c.task_ids.dedup.filter
      (fun oid => !coveredB (extract_task_ids new_todos) (collapsedPhases new_todos) oid)
      = [] := by
    apply filterNilOfAllFalse
    intro a ha
    have := h a (List.mem_dedup.mp ha)
    simp [this]
  simp [validate_todos, hm]

/-- If some canonical id is uncovered, reconciliation blocks, listing exactly
the uncovered ids (sorted by the Python key). -/
theorem validate_block_of_uncovered (new_todos : List Todo) (c : Canonical)
    (h : ∃ oid ∈ c.task_ids,
      coveredB (extract_task_ids new_todos) (collapsedPhases new_todos) oid = false) :
    validate_todos new_todos c =
      (false, missingMsg (pySortIds (c.task_ids.dedup.filter
        (fun oid => !coveredB (extract_task_ids new_todos) (collapsedPhases new_todos) oid)))) := by
  obtain ⟨oid, hmem, hcov⟩ := h
  have hne : c.task_ids.dedup.filter
      (fun oid => !coveredB (extract_task_ids new_todos) (collapsedPhases new_todos) oid)
      ≠ [] := by
    apply List.ne_nil_of_mem (a := oid)
    rw [List.mem_filter]
    exact ⟨List.mem_dedup.mpr hmem, by simp [hcov]⟩
  simp [validate_todos, hne]

/-! ## Claim theorems -/

/-- C4: whenever the expectation artifact exists and holds an integer, the gate
is evaluated before any reconciliation against the canonical — for every
canonical state (missing, corrupt, or any snapshot) a write whose item count
differs from the stored integer is blocked with the exact expected and actual
counts, and the artifact is preserved (not deleted) so the caller can retry. -/
theorem C4_gate_mismatch_blocks (cs : LoadState) (spd : Option String)
    (content : String) (n : Int) (todos : List Todo) (pd : String)
    (hp : pyParseInt (pyStrip content) = some n)
    (hne : todos ≠ [])
    (hc : (todos.length : Int) ≠ n) :
    runHook ⟨some content, cs, spd⟩ "TodoWrite" todos pd =
      (.block (mismatchMsg n todos.length), ⟨some content, cs, spd⟩) := by
  simp [runHook, check_expected_count, hp, hne, hc]

/-- Witness for C4 at a concrete input: artifact `"5"`, a one-item write. -/
theorem C4_gate_mismatch_blocks_witness :
    runHook ⟨some "5", .missing, none⟩ "TodoWrite" [⟨"0.1: a", "pending", ""⟩] "/p" =
      (.block (mismatchMsg 5 1), ⟨some "5", .missing, none⟩) :=
  C4_gate_mismatch_blocks .missing none "5" 5 [⟨"0.1: a", "pending", ""⟩] "/p"
    (by decide) (by decide) (by decide)

/-- C5 counterexample: artifact `"3"` matched by a 3-item write — the write is
accepted and bootstraps the canonical, but the saved snapshot records no
expected count (`save_canonical` writes no `expected_count` key), refuting
"with expectedCount recorded in the snapshot". -/
theorem C5_counterexample :
    runHook ⟨some "3", .missing, none⟩ "TodoWrite"
        [⟨"0.1: a", "pending", ""⟩, ⟨"0.2: b", "pending", ""⟩, ⟨"0.3: c", "pending", ""⟩] "/p" =
      (.canonicalCreated 3,
        ⟨none, .ok (save_canonical
          [⟨"0.1: a", "pending", ""⟩, ⟨"0.2: b", "pending", ""⟩, ⟨"0.3: c", "pending", ""⟩] none),
          none⟩) ∧
    (save_canonical
        [⟨"0.1: a", "pending", ""⟩, ⟨"0.2: b", "pending", ""⟩, ⟨"0.3: c", "pending", ""⟩]
        none).expected_count = none := by
  constructor
  · decide
  · rfl

/-- C5 (amended): when the artifact holds an integer equal to the write's item
count, the artifact is deleted and the write becomes the new canonical
baseline (count, ids, items recomputed from the write), taking precedence over
ordinary reconciliation — the prior canonical state is irrelevant; however,
no expected count is recorded in the snapshot. -/
theorem C5_gate_match_consumes (cs : LoadState) (spd : Option String)
    (content : String) (n : Int) (todos : List Todo) (pd : String)
    (hp : pyParseInt (pyStrip content) = some n)
    (hne : todos ≠ [])
    (hc : (todos.length : Int) = n) :
    runHook ⟨some content, cs, spd⟩ "TodoWrite" todos pd =
      (.canonicalCreated todos.length, ⟨none, .ok (save_canonical todos spd), spd⟩) ∧
    (save_canonical todos spd).expected_count = none := by
  constructor
  · simp [runHook, check_expected_count, hp, hne, hc]
  · rfl

/-- Witness for C5 at a concrete input: artifact `"2"`, a two-item write,
against a canonical that plain reconciliation would block. -/
theorem C5_gate_match_consumes_witness :
    runHook ⟨some "2", .ok ⟨none, none, 1, ["9.9"], [⟨"9.9: z", "pending", ""⟩]⟩, none⟩
        "TodoWrite" [⟨"0.1: a", "pending", ""⟩, ⟨"0.2: b", "pending", ""⟩] "/p" =
      (.canonicalCreated 2,
        ⟨none, .ok (save_canonical [⟨"0.1: a", "pending", ""⟩, ⟨"0.2: b", "pending", ""⟩] none),
          none⟩) ∧
    (save_canonical [⟨"0.1: a", "pending", ""⟩, ⟨"0.2: b", "pending", ""⟩] none).expected_count
      = none :=
  C5_gate_match_consumes (.ok ⟨none, none, 1, ["9.9"], [⟨"9.9: z", "pending", ""⟩]⟩) none
    "2" 2 [⟨"0.1: a", "pending", ""⟩, ⟨"0.2: b", "pending", ""⟩] "/p"
    (by decide) (by decide) (by decide)

/-- C6: when no canonical id is missing, reconciliation blocks with the before
and after counts iff the new item count is strictly below the canonical task
count and no collapse is declared; otherwise the check passes with an allow. -/
theorem C6_unexplained_shrink (new_todos : List Todo) (c : Canonical)
    (h : ∀ oid ∈ c.task_ids,
      coveredB (extract_task_ids new_todos) (collapsedPhases new_todos) oid = true) :
    validate_todos new_todos c =
      if new_todos.length < c.task_count ∧ collapsedPhases new_todos = [] then
        (false, shrinkMsg c.task_count new_todos.length)
      else (true, "") :=
  validate_of_all_covered new_todos c h

/-- Witness for C6 at a concrete input: a covered-but-shrunk write blocks with
the counts, the same write against a smaller canonical count allows. -/
theorem C6_unexplained_shrink_witness :
    validate_todos [⟨"0.1: a", "pending", ""⟩]
        ⟨none, none, 3, ["0.1"],
          [⟨"0.1: a", "pending", ""⟩, ⟨"note one", "pending", ""⟩, ⟨"note two", "pending", ""⟩]⟩ =
      (false, shrinkMsg 3 1) ∧
    validate_todos [⟨"0.1: a", "pending", ""⟩]
        ⟨none, none, 1, ["0.1"], [⟨"0.1: a", "pending", ""⟩]⟩ = (true, "") := by
  constructor
  · have h := C6_unexplained_shrink [⟨"0.1: a", "pending", ""⟩]
      ⟨none, none, 3, ["0.1"],
        [⟨"0.1: a", "pending", ""⟩, ⟨"note one", "pending", ""⟩, ⟨"note two", "pending", ""⟩]⟩
      (by decide)
    simpa using h
  · have h := C6_unexplained_shrink [⟨"0.1: a", "pending", ""⟩]
      ⟨none, none, 1, ["0.1"], [⟨"0.1: a", "pending", ""⟩]⟩ (by decide)
    simpa using h

/-- C8: calling `update`, `complete` or `fail` with no existing checkpoint is
fatal for that call — each reports the "must init first" error and writes no
state — whereas with an existing checkpoint each call succeeds. -/
theorem C8_checkpoint_precondition (sn : String) (idx : Int) (task : String)
    (iid iname : Option String) (reason now : String) :
    (update_checkpoint none sn idx task iid iname now = .error (precondMsg sn) ∧
     complete_item none sn idx iid now = .error (precondMsg sn) ∧
     fail_item none sn idx iid reason now = .error (precondMsg sn) ∧
     stepStore none (update_checkpoint none sn idx task iid iname now) = none ∧
     stepStore none (complete_item none sn idx iid now) = none ∧
     stepStore none (fail_item none sn idx iid reason now) = none) ∧
    ∀ c : Checkpoint,
      update_checkpoint (some c) sn idx task iid iname now =
        .ok (applyUpdate c idx task iid iname now) ∧
      complete_item (some c) sn idx iid now = .ok (applyComplete c idx iid now) ∧
      fail_item (some c) sn idx iid reason now = .ok (applyFail c idx iid reason now) :=
  ⟨⟨rfl, rfl, rfl, rfl, rfl, rfl⟩, fun _ => ⟨rfl, rfl, rfl⟩⟩

/-- C9: a canonical whose stored id set and count match its stored items always
allows re-submission of exactly those items, and the stored canonical (its id
set and task count in particular) is unchanged afterwards. -/
theorem C9_idempotence (c : Canonical) (spd : Option String) (pd : String)
    (hids : ∀ id ∈ c.task_ids, id ∈ extract_task_ids c.todos)
    (_hids2 : ∀ id ∈ extract_task_ids c.todos, id ∈ c.task_ids)
    (hcount : c.task_count = c.todos.length) :
    validate_todos c.todos c = (true, "") ∧
      (runHook ⟨none, .ok c, spd⟩ "TodoWrite" c.todos pd).2 = ⟨none, .ok c, spd⟩ := by
  have hval : validate_todos c.todos c = (true, "") := by
    have h := validate_of_all_covered c.todos c (fun oid hmem => by
      have hm : oid ∈ extract_task_ids c.todos := hids oid hmem
      simp [coveredB, hm])
    rw [h, if_neg]
    rw [hcount]
    simp
  refine ⟨hval, ?_⟩
  by_cases ht : c.todos = []
  · simp [runHook, ht]
  · simp [runHook, ht, check_expected_count, hval]

/-- Witness for C9 at a concrete input: a two-item canonical resubmitted
verbatim. -/
theorem C9_idempotence_witness :
    validate_todos [⟨"0.1: a", "completed", ""⟩, ⟨"1.1: b", "pending", ""⟩]
        ⟨none, none, 2, ["0.1", "1.1"],
          [⟨"0.1: a", "completed", ""⟩, ⟨"1.1: b", "pending", ""⟩]⟩ = (true, "") ∧
      (runHook ⟨none,
          .ok ⟨none, none, 2, ["0.1", "1.1"],
            [⟨"0.1: a", "completed", ""⟩, ⟨"1.1: b", "pending", ""⟩]⟩, none⟩
        "TodoWrite" [⟨"0.1: a", "completed", ""⟩, ⟨"1.1: b", "pending", ""⟩] "/p").2 =
        ⟨none,
          .ok ⟨none, none, 2, ["0.1", "1.1"],
            [⟨"0.1: a", "completed", ""⟩, ⟨"1.1: b", "pending", ""⟩]⟩, none⟩ :=
  C9_idempotence
    ⟨none, none, 2, ["0.1", "1.1"],
      [⟨"0.1: a", "completed", ""⟩, ⟨"1.1: b", "pending", ""⟩]⟩ none "/p"
    (by decide) (by decide) (by decide)

/-- C10: an artifact whose content does not parse as an integer behaves exactly
as if no artifact existed — same emitted record, same canonical evolution, and
the corrupt artifact file is left in place, never surfaced as an error. -/
theorem C10_corrupt_artifact_ignored (content : String) (cs : LoadState)
    (spd : Option String) (todos : List Todo) (pd : String)
    (hp : pyParseInt (pyStrip content) = none) :
    (runHook ⟨some content, cs, spd⟩ "TodoWrite" todos pd).1 =
      (runHook ⟨none, cs, spd⟩ "TodoWrite" todos pd).1 ∧
    (runHook ⟨some content, cs, spd⟩ "TodoWrite" todos pd).2.canonical =
      (runHook ⟨none, cs, spd⟩ "TodoWrite" todos pd).2.canonical ∧
    (runHook ⟨some content, cs, spd⟩ "TodoWrite" todos pd).2.artifact = some content := by
  by_cases ht : todos = []
  · simp [runHook, ht]
  · cases cs with
    | missing => simp [runHook, ht, check_expected_count, hp]
    | corrupt e => simp [runHook, ht, check_expected_count, hp]
    | ok c =>
      by_cases hv : (validate_todos todos c).1 = false
      · simp [runHook, ht, check_expected_count, hp, hv]
      · simp [runHook, ht, check_expected_count, hp, hv]

/-- Witness for C10 at a concrete input: artifact content `"abc"`. -/
theorem C10_corrupt_artifact_ignored_witness :
    (runHook ⟨some "abc", .missing, none⟩ "TodoWrite" [⟨"0.1: a", "pending", ""⟩] "/p").1 =
      (runHook ⟨none, .missing, none⟩ "TodoWrite" [⟨"0.1: a", "pending", ""⟩] "/p").1 ∧
    (runHook ⟨some "abc", .missing, none⟩ "TodoWrite" [⟨"0.1: a", "pending", ""⟩] "/p").2.canonical =
      (runHook ⟨none, .missing, none⟩ "TodoWrite" [⟨"0.1: a", "pending", ""⟩] "/p").2.canonical ∧
    (runHook ⟨some "abc", .missing, none⟩ "TodoWrite" [⟨"0.1: a", "pending", ""⟩] "/p").2.artifact
      = some "abc" :=
  C10_corrupt_artifact_ignored "abc" .missing none [⟨"0.1: a", "pending", ""⟩] "/p" (by decide)

/-- C2 counterexample: a valid two-item write against a one-item canonical is
allowed (`validated`) yet the stored canonical is untouched — it still has
`task_count = 1` and the original single item, not the new write's 2 items, so
the canonical is not "replaced wholesale" on valid writes. -/
theorem C2_counterexample :
    runHook ⟨none, .ok ⟨none, none, 1, ["0.1"], [⟨"0.1: a", "pending", ""⟩]⟩, none⟩
        "TodoWrite" [⟨"0.1: a", "pending", ""⟩, ⟨"0.2: b", "pending", ""⟩] "/p" =
      (.validated 2 1,
        ⟨none, .ok ⟨none, none, 1, ["0.1"], [⟨"0.1: a", "pending", ""⟩]⟩, none⟩) ∧
    (⟨none, none, 1, ["0.1"], [⟨"0.1: a", "pending", ""⟩]⟩ : Canonical).task_count = 1 ∧
    ([⟨"0.1: a", "pending", ""⟩, ⟨"0.2: b", "pending", ""⟩] : List Todo).length = 2 := by
  refine ⟨by decide, rfl, rfl⟩

/-- C2 (amended): a valid (allowed) write that passes reconciliation against an
existing canonical leaves the stored canonical entirely unchanged — count, id
set, items, `spec_file` and `expected_count` all remain those of the prior
canonical; the hook performs no replacement on this path. -/
theorem C2_valid_write_preserves_canonical (c : Canonical) (todos : List Todo)
    (spd : Option String) (pd : String)
    (hne : todos ≠ [])
    (hv : (validate_todos todos c).1 = true) :
    runHook ⟨none, .ok c, spd⟩ "TodoWrite" todos pd =
      (.validated todos.length c.task_count, ⟨none, .ok c, spd⟩) := by
  simp [runHook, hne, check_expected_count, hv]

/-- Witness for C2's amended theorem at a concrete input: an added-item write. -/
theorem C2_valid_write_preserves_canonical_witness :
    runHook ⟨none, .ok ⟨none, none, 1, ["1.1"], [⟨"1.1: c", "pending", ""⟩]⟩, none⟩
        "TodoWrite" [⟨"1.1: c", "in_progress", ""⟩, ⟨"1.2: d", "pending", ""⟩] "/q" =
      (.validated 2 1, ⟨none, .ok ⟨none, none, 1, ["1.1"], [⟨"1.1: c", "pending", ""⟩]⟩, none⟩) :=
  C2_valid_write_preserves_canonical
    ⟨none, none, 1, ["1.1"], [⟨"1.1: c", "pending", ""⟩]⟩
    [⟨"1.1: c", "in_progress", ""⟩, ⟨"1.2: d", "pending", ""⟩] none "/q"
    (by decide) (by decide)

/-- C1 counterexample: canonical id set `{0.1}` and new id set `{5.1}` are both
non-empty and disjoint, yet reconciliation does not allow a wholesale
replacement — it blocks, reporting `0.1` as missing.  There is no fresh-start
override in `validate_todos`. -/
theorem C1_counterexample :
    extract_task_ids [⟨"5.1: New thing", "pending", ""⟩] = ["5.1"] ∧
    (⟨none, none, 1, ["0.1"], [⟨"0.1: Setup", "pending", ""⟩]⟩ : Canonical).task_ids = ["0.1"] ∧
    validate_todos [⟨"5.1: New thing", "pending", ""⟩]
        ⟨none, none, 1, ["0.1"], [⟨"0.1: Setup", "pending", ""⟩]⟩ =
      (false, "Task removal not allowed. Missing: ['0.1']") := by
  refine ⟨rfl, rfl, by decide⟩

/-- C1 (amended): there is no fresh-start override.  A write whose extracted id
set is disjoint from a non-empty canonical id set is still subject to the
coverage check: when it additionally declares no collapse and offers no
`phase.x` id covering a canonical phase, reconciliation blocks and lists every
canonical id as missing, instead of allowing a wholesale replacement. -/
theorem C1_no_fresh_start (new_todos : List Todo) (c : Canonical)
    (hcan : c.task_ids ≠ [])
    (_hnew : extract_task_ids new_todos ≠ [])
    (hdisj : ∀ id ∈ c.task_ids, id ∉ extract_task_ids new_todos)
    (hcoll : collapsedPhases new_todos = [])
    (hx : ∀ id ∈ c.task_ids, ∀ p, get_phase_number id = some p →
      (p ++ ".x") ∉ extract_task_ids new_todos) :
    validate_todos new_todos c =
      (false, missingMsg (pySortIds c.task_ids.dedup)) := by
  have hcv : ∀ oid ∈ c.task_ids.dedup,
      coveredB (extract_task_ids new_todos) (collapsedPhases new_todos) oid = false := by
    intro oid hm
    have hmem := List.mem_dedup.mp hm
    have h1 := hdisj oid hmem
    rcases hgp : get_phase_number oid with _ | p
    · simp [coveredB, h1, hgp]
    · by_cases hp0 : p = ""
      · simp [coveredB, h1, hgp, hp0]
      · have h2 := hx oid hmem p hgp
        simp [coveredB, h1, hgp, hp0, hcoll, h2]
  have hfil : c.task_ids.dedup.filter
      (fun oid => !coveredB (extract_task_ids new_todos) (collapsedPhases new_todos) oid)
      = c.task_ids.dedup := by
    apply filterAllTrue
    intro a ha
    simp [hcv a ha]
  have hne : c.task_ids.dedup ≠ [] := by
    intro h0
    exact hcan ((List.dedup_eq_nil c.task_ids).mp h0)
  simp [validate_todos, hfil, hne]

/-- Witness for C1's amended theorem at a concrete input: disjoint non-empty id
sets, nothing collapsed. -/
theorem C1_no_fresh_start_witness :
    validate_todos [⟨"7.1: Other work", "pending", ""⟩]
        ⟨none, none, 2, ["0.1", "0.2"],
          [⟨"0.1: a", "pending", ""⟩, ⟨"0.2: b", "pending", ""⟩]⟩ =
      (false, missingMsg (pySortIds (["0.1", "0.2"] : List String).dedup)) :=
  C1_no_fresh_start [⟨"7.1: Other work", "pending", ""⟩]
    ⟨none, none, 2, ["0.1", "0.2"], [⟨"0.1: a", "pending", ""⟩, ⟨"0.2: b", "pending", ""⟩]⟩
    (by decide) (by decide) (by decide) (by decide) (by decide)

/-- C3 counterexample: every canonical id (`0.1` alone) is covered verbatim by
the new write, yet reconciliation does not allow it — the unexplained-shrink
check blocks (3 items dropped to 1 with no declared collapse), refuting
"reconciliation allows iff every id is covered". -/
theorem C3_counterexample :
    coveredB (extract_task_ids [⟨"0.1: a", "pending", ""⟩])
        (collapsedPhases [⟨"0.1: a", "pending", ""⟩]) "0.1" = true ∧
    validate_todos [⟨"0.1: a", "pending", ""⟩]
        ⟨none, none, 3, ["0.1"],
          [⟨"0.1: a", "pending", ""⟩, ⟨"note one", "pending", ""⟩, ⟨"note two", "pending", ""⟩]⟩ =
      (false, shrinkMsg 3 1) := by
  refine ⟨by decide, by decide⟩

/-- C3 (amended): reconciliation blocks listing exactly the uncovered ids iff
some canonical id is uncovered (not in the new ids, phase not collapsed, no
`phase.x` id); when every canonical id is covered, it allows unless the
unexplained-shrink check blocks (count decreased with no declared collapse). -/
theorem C3_coverage (new_todos : List Todo) (c : Canonical) :
    ((∃ oid ∈ c.task_ids,
        coveredB (extract_task_ids new_todos) (collapsedPhases new_todos) oid = false) →
      validate_todos new_todos c =
        (false, missingMsg (pySortIds (c.task_ids.dedup.filter
          (fun oid => !coveredB (extract_task_ids new_todos) (collapsedPhases new_todos) oid))))) ∧
    ((∀ oid ∈ c.task_ids,
        coveredB (extract_task_ids new_todos) (collapsedPhases new_todos) oid = true) →
      validate_todos new_todos c =
        if new_todos.length < c.task_count ∧ collapsedPhases new_todos = [] then
          (false, shrinkMsg c.task_count new_todos.length)
        else (true, "")) :=
  ⟨validate_block_of_uncovered new_todos c, validate_of_all_covered new_todos c⟩

/-- Witness for C3's amended theorem at a concrete input: one id uncovered. -/
theorem C3_coverage_witness :
    validate_todos [⟨"0.1: Setup", "completed", ""⟩, ⟨"1.1: Build", "pending", ""⟩]
        ⟨none, none, 3, ["0.1", "0.2", "1.1"],
          [⟨"0.1: Setup", "pending", ""⟩, ⟨"0.2: Config", "pending", ""⟩,
            ⟨"1.1: Build", "pending", ""⟩]⟩ =
      (false, missingMsg (pySortIds ((["0.1", "0.2", "1.1"] : List String).dedup.filter
        (fun oid => !coveredB
          (extract_task_ids [⟨"0.1: Setup", "completed", ""⟩, ⟨"1.1: Build", "pending", ""⟩])
          (collapsedPhases [⟨"0.1: Setup", "completed", ""⟩, ⟨"1.1: Build", "pending", ""⟩])
          oid)))) :=
  (C3_coverage [⟨"0.1: Setup", "completed", ""⟩, ⟨"1.1: Build", "pending", ""⟩]
      ⟨none, none, 3, ["0.1", "0.2", "1.1"],
        [⟨"0.1: Setup", "pending", ""⟩, ⟨"0.2: Config", "pending", ""⟩,
          ⟨"1.1: Build", "pending", ""⟩]⟩).1
    ⟨"0.2", by decide, by decide⟩

/-- A fresh checkpoint satisfies the status invariant. -/
theorem ckInv_init (sn : String) (total : Int) (lp : String) (sf : Option String)
    (t0 : String) : ckInv total (init_checkpoint sn total lp sf t0) := by
  refine ⟨rfl, ?_⟩
  have h1 : (1 : Int) ≤ max total 1 := le_max_right total 1
  apply iff_of_false
  · intro h
    have h2 : "in_progress" = "completed" := h
    simp at h2
  · intro h
    have h2 : ((0 : Int)) ≥ max total 1 := h
    linarith

/-- Every operation preserves the status invariant. -/
theorem ckInv_step (total : Int) (c : Checkpoint) (op : Op) (now : String)
    (h : ckInv total c) : ckInv total (applyOp c op now) := by
  obtain ⟨ht, hs⟩ := h
  cases op with
  | update i t iid iname => exact ⟨ht, hs⟩
  | fail i iid r => exact ⟨ht, hs⟩
  | complete i iid =>
    refine ⟨ht, ?_⟩
    simp only [applyOp, applyComplete, List.length_append, List.length_cons,
      List.length_nil, ht]
    have hub : total ≤ max total 1 := le_max_left total 1
    have hlb : (1 : Int) ≤ max total 1 := le_max_right total 1
    rcases max_choice total 1 with hm | hm <;> rw [hm] at hub hlb ⊢ <;> split
    · next hge => exact iff_of_true rfl (by push_cast at hge ⊢; omega)
    · next hge =>
      rw [hs, hm]
      push_cast at hge ⊢
      omega
    · next hge => exact iff_of_true rfl (by push_cast at hge ⊢; omega)
    · next hge =>
      rw [hs, hm]
      push_cast at hge ⊢
      omega

/-- The status invariant holds at every state reachable from `init`. -/
theorem ckInv_reach (total : Int) (ops : List (Op × String)) (c0 : Checkpoint)
    (h : ckInv total c0) : ckInv total (reachCk c0 ops) := by
  induction ops generalizing c0 with
  | nil => exact h
  | cons p rest ih => exact ih _ (ckInv_step total c0 p.1 p.2 h)

/-- No operation shrinks the completed ledger. -/
theorem applyOp_len_mono (c : Checkpoint) (op : Op) (now : String) :
    c.completed_items.length ≤ (applyOp c op now).completed_items.length := by
  cases op with
  | update i t iid iname => exact le_refl _
  | fail i iid r => exact le_refl _
  | complete i iid => simp [applyOp, applyComplete]

/-- `complete` appends exactly one ledger entry. -/
theorem applyComplete_len (c : Checkpoint) (i : Int) (iid : Option String)
    (now : String) :
    (applyComplete c i iid now).completed_items.length = c.completed_items.length + 1 := by
  simp [applyComplete]

/-- `update` and `fail` do not change `status`. -/
theorem applyOp_status_of_not_complete (c : Checkpoint) (op : Op) (now : String)
    (h : ∀ i iid, op ≠ .complete i iid) : (applyOp c op now).status = c.status := by
  cases op with
  | update i t iid iname => rfl
  | fail i iid r => rfl
  | complete i iid => exact absurd rfl (h i iid)

/-- C7 counterexample: a checkpoint initialised with `total_items = 0` stays
`in_progress` at ledger length `0 = totalItems` and becomes `completed` on its
first `complete`, at ledger length `1 ≠ totalItems` — `status` does not become
`completed` exactly when `completedItems.length` equals `totalItems`. -/
theorem C7_counterexample :
    (init_checkpoint "s" 0 "phase-2" none "t0").status = "in_progress" ∧
    (init_checkpoint "s" 0 "phase-2" none "t0").completed_items.length = 0 ∧
    (applyOp (init_checkpoint "s" 0 "phase-2" none "t0") (.complete 0 none) "t1").status
      = "completed" ∧
    (applyOp (init_checkpoint "s" 0 "phase-2" none "t0") (.complete 0 none) "t1").completed_items.length
      = 1 ∧
    (applyOp (init_checkpoint "s" 0 "phase-2" none "t0") (.complete 0 none) "t1").total_items
      = 0 := by
  refine ⟨rfl, rfl, by decide, rfl, rfl⟩

/-- C7 (amended): along every `update`/`complete`/`fail` sequence within one
checkpoint's life, `completedItems.length` never decreases (`complete` appends
one entry, `update` and `fail` never touch the ledger); `status` is
`"completed"` exactly when the ledger has at least `max totalItems 1` entries,
so for `totalItems ≥ 1` it first becomes `completed` exactly when the ledger
length equals `totalItems` — never at a smaller length — and it never reverts;
for `totalItems ≤ 0` it becomes `completed` at ledger length 1. -/
theorem C7_checkpoint_monotonicity (sn : String) (total : Int) (lp : String)
    (sf : Option String) (t0 : String) (ops : List (Op × String)) (c : Checkpoint)
    (hc : c = reachCk (init_checkpoint sn total lp sf t0) ops) :
    (c.status = "completed" ↔ (c.completed_items.length : Int) ≥ max total 1) ∧
    (∀ op now, c.completed_items.length ≤ (applyOp c op now).completed_items.length) ∧
    (∀ i t iid iname now,
      (applyOp c (.update i t iid iname) now).completed_items = c.completed_items) ∧
    (∀ i iid reason now,
      (applyOp c (.fail i iid reason) now).completed_items = c.completed_items) ∧
    (∀ op now, c.status = "completed" → (applyOp c op now).status = "completed") ∧
    (1 ≤ total → c.status ≠ "completed" →
      ∀ op now, (applyOp c op now).status = "completed" →
        ((applyOp c op now).completed_items.length : Int) = total) := by
  have hinv : ckInv total c := hc ▸ ckInv_reach total ops _ (ckInv_init sn total lp sf t0)
  obtain ⟨ht, hs⟩ := hinv
  refine ⟨hs, applyOp_len_mono c, fun _ _ _ _ _ => rfl, fun _ _ _ _ => rfl, ?_, ?_⟩
  · intro op now hcomp
    obtain ⟨ht', hs'⟩ := ckInv_step total c op now ⟨ht, hs⟩
    apply hs'.mpr
    have h1 := hs.mp hcomp
    have h2 := applyOp_len_mono c op now
    have h3 : (c.completed_items.length : Int) ≤ ((applyOp c op now).completed_items.length : Int) := by
      exact_mod_cast h2
    linarith
  · intro h1 hnc op now hcomp'
    obtain ⟨ht', hs'⟩ := ckInv_step total c op now ⟨ht, hs⟩
    have hmax : max total 1 = total := max_eq_left h1
    have hlt : (c.completed_items.length : Int) < total := by
      by_contra hcon
      exact hnc (hs.mpr (by rw [hmax]; linarith))
    have hge : ((applyOp c op now).completed_items.length : Int) ≥ total := by
      have := hs'.mp hcomp'
      rw [hmax] at this
      exact this
    cases op with
    | update i t iid iname =>
      exact absurd hcomp' (by rw [applyOp_status_of_not_complete c _ now (by intro i iid h; cases h)]; exact hnc)
    | fail i iid r =>
      exact absurd hcomp' (by rw [applyOp_status_of_not_complete c _ now (by intro i iid h; cases h)]; exact hnc)
    | complete i iid =>
      have hlen : (applyOp c (.complete i iid) now).completed_items.length
          = c.completed_items.length + 1 := applyComplete_len c i iid now
      rw [hlen]
      push_cast
      push_cast at hge hlt
      rw [hlen] at hge
      push_cast at hge
      linarith

/-- Witness for C7's amended theorem at a concrete run: `total = 2`, two
`complete` calls — the second flips the status. -/
theorem C7_checkpoint_monotonicity_witness :
    (reachCk (init_checkpoint "s" 2 "phase-2" none "t0")
        [(.complete 0 none, "t1"), (.complete 1 none, "t2")]).status = "completed" := by
  have h := C7_checkpoint_monotonicity "s" 2 "phase-2" none "t0"
    [(.complete 0 none, "t1"), (.complete 1 none, "t2")] _ rfl
  exact h.1.mpr (by decide)

end SpecExec
